import Mathlib

/-!
# Sandbox generation orchestrator — shallow embedding

Shallow embedding of the sandbox-generation script (`generate-repros-next`):
the per-template sandbox builder (`runGenerators`'s per-task closure), the
registry swap (`withLocalRegistry`), the storybook installer wrapper
(`addStorybook` / `sbInit`), npm performance tuning
(`improveNPMPerformance`), the catalog filter (`generate`) and the CLI exit
behaviour (`program.action`), plus a small nondeterministic scheduler
modelling `pLimit`-bounded task execution.

Modelling conventions:
- Filesystem paths are lists of components (`FsPath := List String`); the
  string form of a path is its components interspersed with `/`.  A
  slash-free pattern is a substring of the joined string exactly when it is
  a substring of one component, so the JS `src.indexOf(pat) !== -1` test is
  modelled componentwise.
- External commands are events in a trace; whether a command fails is an
  oracle `failCmd : Cmd → Bool`.  `npm config set registry <url>` may fail
  according to an oracle list `failSets` (urls whose `set` fails), to model
  a failing restoration.
- npm global configuration is a record of the settings this script touches.
- JS exceptions are `Option Err` results (`some e` = the call threw `e`).
-/

/-- Does `pat` occur (as a contiguous sublist) in `s`?  Substring search on
character lists, structurally recursive so the kernel can evaluate it. -/
def subOccurs (pat : List Char) : List Char → Bool
  | [] => pat.isEmpty
  | c :: tail => pat.isPrefixOf (c :: tail) || subOccurs pat tail

/-- JS `s.includes(pat)` / `s.indexOf(pat) !== -1`. -/
def strIncludes (s pat : String) : Bool :=
  subOccurs pat.data s.data

/-- Fuel-bounded core of `replaceAll`: replace every non-overlapping,
left-to-right occurrence of `pat` by `repl`.  With `fuel ≥ s.length` the
fuel never runs out (each step consumes at least one character). -/
def replaceAllAux (pat repl : List Char) : Nat → List Char → List Char
  | 0, s => s
  | _ + 1, [] => []
  | fuel + 1, c :: tail =>
    if pat.isPrefixOf (c :: tail) && !pat.isEmpty then
      repl ++ replaceAllAux pat repl fuel ((c :: tail).drop pat.length)
    else
      c :: replaceAllAux pat repl fuel tail

/-- JS `s.replaceAll(pat, repl)`. -/
def replaceAll (s pat repl : String) : String :=
  ⟨replaceAllAux pat.data repl.data s.data.length s.data⟩

/-- A filesystem path, as its slash-separated components. -/
abbrev FsPath := List String

/-- Does some component of the path contain `pat` as a substring?  For
slash-free `pat` this is exactly the JS `path.indexOf(pat) !== -1` on the
joined path string. -/
def pathHasSub (pat : String) (p : FsPath) : Bool :=
  p.any (fun comp => strIncludes comp pat)


/-! ## Data model: errors, commands, events, npm configuration -/

/-- Exceptions thrown by the modelled operations. -/
inductive Err where
  /-- An external command (scaffolding script or storybook installer)
  exited non-zero or timed out (`ProcessError`). -/
  | processErr (script : String) (cwd : FsPath)
  /-- Failure of `npm config set registry <url>`. -/
  | setErr (url : String)
deriving DecidableEq, Repr

/-- One external command invocation: shell script text, working directory,
and the `npm_config_user_agent` override when one is set. -/
structure Cmd where
  script : String
  cwd : FsPath
  ua : Option String := none
deriving DecidableEq, Repr

/-- Observable actions of the pipeline, in execution order. -/
inductive Event where
  /-- Run an external command (`runCommand` / `execaCommand`). -/
  | cmd (c : Cmd)
  /-- Read `npm config get <key>` (via `execaCommand`/`execSync`). -/
  | npmGet (key : String)
  /-- Write `npm config set <key> <value>` (via `execaCommand`/`execSync`). -/
  | npmSet (key value : String)
  /-- A call `emptyDir(dir)`. -/
  | emptyDirE (dir : FsPath)
  /-- A call `ensureDir(dir)`. -/
  | ensureDirE (dir : FsPath)
  /-- A call `copy(src, dst)` (with the node_modules/.git filter for the before
  snapshot; plain for the `.stackblitzrc` template file). -/
  | copyE (src dst : FsPath)
  /-- A call `move(src, dst)`. -/
  | moveE (src dst : FsPath)
  /-- A call `remove(dir)`. -/
  | removeE (dir : FsPath)
  /-- A call `writeFile(path)`. -/
  | writeFileE (path : FsPath)
deriving DecidableEq, Repr

/-- The npm global configuration settings this script reads or mutates. -/
structure NpmConfig where
  registryURL : String
  legacyPeerDeps : String
  audit : String
  preferOffline : String
deriving DecidableEq, Repr

/-- A shutdown hook (`beforeShutdown(...)`): a config-restoring action run
at process exit. -/
abbrev Hook := NpmConfig → NpmConfig

abbrev Hooks := List Hook

/-! ### Constants (`../utils/constants`)

The constants module is not part of the sources at hand; the names below
are modelled from the spec: the reserved before/after directory names are
`before` / `after` (spec §3: `initDir = tempRoot/before`, output
`baseDir/before` and `baseDir/after`), the repros directory is the shared
persistent output root, and the local registry URL is an arbitrary fixed
URL distinct from typical defaults. -/

/-- Modelled from the spec: the reserved before-directory name. -/
def BEFORE_DIR_NAME : String := "before"

/-- Modelled from the spec: the after-directory name. -/
def AFTER_DIR_NAME : String := "after"

/-- Modelled from the spec: the persistent output root. -/
def REPROS_DIRECTORY : FsPath := ["repros"]

/-- Modelled from the spec: the local/alternate registry URL. -/
def LOCAL_REGISTRY_URL : String := "http://localhost:6001"

/-- The path `join(__dirname, '../../code/lib/cli/bin/index.js')`. -/
def sbCliBinaryPath : String := "../../code/lib/cli/bin/index.js"

/-- Model of `tempy.directory()`: a fresh per-task temporary root, modelled as a
directory indexed by the task's position in the catalog. -/
def tempyDirectory (idx : Nat) : FsPath := ["tmp", "tempy-" ++ toString idx]

/-! ## Registry swap (`withLocalRegistry`) -/

/-- Model of `packageManager.setRegistryURL(url)`: fails when `url` is in the
`failSets` oracle, otherwise updates the registry setting. -/
def setRegistryURL (failSets : List String) (url : String) (cfg : NpmConfig) :
    Except Err NpmConfig :=
  if url ∈ failSets then .error (.setErr url)
  else .ok { cfg with registryURL := url }

/-- Model of `withLocalRegistry(packageManager, action)`: read the current registry
URL, set the local registry URL and run `action` inside a `try` whose
`catch` stashes the exception, then in the `finally` restore the previous
URL and re-throw the stashed exception.  A throw inside the `finally`
itself (a failing restore) propagates instead, as in JS. -/
def withLocalRegistry (failSets : List String)
    (action : NpmConfig → List Event × Option Err × NpmConfig)
    (cfg : NpmConfig) : List Event × Option Err × NpmConfig :=
  let prevUrl := cfg.registryURL
  -- try { setRegistryURL(LOCAL_REGISTRY_URL); await action() } catch (e) { error = e }
  let tryRes : List Event × Option Err × NpmConfig :=
    match setRegistryURL failSets LOCAL_REGISTRY_URL cfg with
    | .error e => ([], some e, cfg)
    | .ok cfg' =>
      let (evs, err, cfg'') := action cfg'
      (Event.npmSet "registry" LOCAL_REGISTRY_URL :: evs, err, cfg'')
  let (evs, error, cfg1) := tryRes
  -- finally { setRegistryURL(prevUrl); if (error) throw error }
  match setRegistryURL failSets prevUrl cfg1 with
  | .error e => (evs, some e, cfg1)
  | .ok cfg2 => (evs ++ [Event.npmSet "registry" prevUrl], error, cfg2)

/-! ## Installer (`sbInit`, `addStorybook`) -/

/-- Model of `sbInit(cwd, flags, debug)`: run the storybook CLI binary with
`--yes` prepended to the flags, in `cwd`.  Failure per the `failCmd`
oracle. -/
def sbInit (failCmd : Cmd → Bool) (cwd : FsPath) (flags : List String)
    (cfg : NpmConfig) : List Event × Option Err × NpmConfig :=
  let fullFlags := "--yes" :: flags
  let script := sbCliBinaryPath ++ " init " ++ String.intercalate " " fullFlags
  let c : Cmd := { script := script, cwd := cwd }
  ([Event.cmd c], if failCmd c then some (.processErr c.script c.cwd) else none, cfg)

/-- Epilogue of `addStorybook` after the install attempt: a failed install
propagates its exception (lines after it never run); a successful install
on the prerelease task runs
`execSync('npm config set legacy-peer-deps ' + legacyPeerDeps)`. -/
def addStorybookFinish (prerelease : Bool) (legacyPeerDeps : String)
    (evs : List Event) (err : Option Err) (cfg : NpmConfig) (hooks : Hooks) :
    List Event × Option Err × NpmConfig × Hooks :=
  match err with
  | some e => (evs, some e, cfg, hooks)
  | none =>
    if prerelease then
      (evs ++ [Event.npmSet "legacy-peer-deps" legacyPeerDeps],
       none, { cfg with legacyPeerDeps := legacyPeerDeps }, hooks)
    else
      (evs, none, cfg, hooks)

/-- Model of `addStorybook({dir, localRegistry, flags, debug, dirName})`.

Faithful to the source, including its slip: the variable named
`legacyPeerDeps` is read from `npm config get audit`.  For the
`angular-cli/prerelease` task the flag is set to `true` and a shutdown
hook restoring `legacyPeerDeps` (i.e. the audit value) is registered
before the install; after a *successful* install the flag is set back to
`legacyPeerDeps` (there is no `finally`, so a failing install skips this
restore and propagates its exception). -/
def addStorybook (failSets : List String) (failCmd : Cmd → Bool)
    (dir : FsPath) (localRegistry : Bool) (flags : List String)
    (dirName : String) (cfg : NpmConfig) (hooks : Hooks) :
    List Event × Option Err × NpmConfig × Hooks :=
  -- const legacyPeerDeps = (await execaCommand('npm config get audit')).stdout
  let legacyPeerDeps := cfg.audit
  let step1 : List Event × NpmConfig × Hooks :=
    if dirName = "angular-cli/prerelease" then
      ([Event.npmGet "audit", Event.npmSet "legacy-peer-deps" "true"],
       { cfg with legacyPeerDeps := "true" },
       hooks ++ [fun c => { c with legacyPeerDeps := legacyPeerDeps }])
    else
      ([Event.npmGet "audit"], cfg, hooks)
  let evs1 := step1.1
  let cfg1 := step1.2.1
  let hooks1 := step1.2.2
  let step2 : List Event × Option Err × NpmConfig :=
    if localRegistry then
      withLocalRegistry failSets (sbInit failCmd dir flags) cfg1
    else
      sbInit failCmd dir flags cfg1
  addStorybookFinish (dirName = "angular-cli/prerelease") legacyPeerDeps
    (evs1 ++ step2.1) step2.2.1 step2.2.2 hooks1

/-! ## Per-task sandbox builder (`runGenerators`'s per-task closure) -/

/-- JS `s.startsWith(pre)`. -/
def strStartsWith (s pre : String) : Bool :=
  pre.data.isPrefixOf s.data

/-- Installer flags derived from `expected.renderer` (`runGenerators`,
`let flags = []; if (expected.renderer === '@storybook/html') ...`). -/
def rendererFlags (renderer : String) : List String :=
  if renderer = "@storybook/html" then ["--type html"]
  else if renderer = "@storybook/server" then ["--type server"]
  else []

/-- The filter of the before-snapshot `copy`:
`(src) => src.indexOf('node_modules') === -1 && src.indexOf('.git') === -1`. -/
def copyFilter (src : FsPath) : Bool :=
  !(pathHasSub "node_modules" src) && !(pathHasSub ".git" src)

/-- Model of `copy(tempInitDir, beforeDir, { filter })`: the relative paths (under
`tempInitDir`) of the source tree that reach `beforeDir`, i.e. those whose
absolute source path passes `copyFilter`. -/
def beforeSnapshot (tempInitDir : FsPath) (tree : List FsPath) : List FsPath :=
  tree.filter (fun rel => copyFilter (tempInitDir ++ rel))

/-- The scaffolding step: mode A substitutes the `{{beforeDir}}`
placeholder and runs in `tempDir` with an `npm_config_user_agent` hint
from the script's first word; mode B pre-creates `tempInitDir` and runs
the unmodified script there. -/
def scaffold (failCmd : Cmd → Bool) (script : String)
    (tempDir tempInitDir : FsPath) : List Event × Option Err :=
  if strIncludes script "{{beforeDir}}" then
    let scriptWithBeforeDir := replaceAll script "{{beforeDir}}" BEFORE_DIR_NAME
    let ua := if strStartsWith scriptWithBeforeDir "yarn" then "yarn"
      else if strStartsWith scriptWithBeforeDir "pnpm" then "pnpm"
      else "npm"
    let c : Cmd := { script := scriptWithBeforeDir, cwd := tempDir, ua := some ua }
    ([Event.cmd c], if failCmd c then some (.processErr c.script c.cwd) else none)
  else
    let c : Cmd := { script := script, cwd := tempInitDir }
    ([Event.ensureDirE tempInitDir, Event.cmd c],
     if failCmd c then some (.processErr c.script c.cwd) else none)

/-- One catalog entry bound to its key: `{ dirName, name, script,
expected }` with `renderer` standing for `expected.renderer`. -/
structure Generator where
  dirName : String
  name : String
  script : String
  renderer : String
deriving DecidableEq, Repr

/-- Post-install tail of the per-task closure: move to `afterDir`, write
documentation, optionally remove `node_modules`, remove the temp root. -/
def generateOneTail (cleanupEnv : Bool) (tempDir tempInitDir afterDir : FsPath) :
    List Event :=
  [Event.moveE tempInitDir afterDir,
   Event.copyE ["templates", ".stackblitzrc"] (afterDir ++ [".stackblitzrc"]),
   Event.writeFileE (afterDir ++ ["README.md"])] ++
  (if cleanupEnv then [Event.removeE (afterDir ++ ["node_modules"])] else []) ++
  [Event.removeE tempDir]

/-- The per-task closure passed to `limit(...)` inside `runGenerators`:
empty the persistent `baseDir`, scaffold in a fresh temp root, snapshot
into `baseDir/before` (filtered), install storybook, promote to
`baseDir/after`, document, clean up.  A failure in any step aborts only
this task (its exception is this task's settlement). -/
def generateOne (failSets : List String) (failCmd : Cmd → Bool)
    (localRegistry debug cleanupEnv : Bool) (idx : Nat) (g : Generator)
    (cfg : NpmConfig) (hooks : Hooks) :
    List Event × Option Err × NpmConfig × Hooks :=
  let flags := rendererFlags g.renderer
  let baseDir := REPROS_DIRECTORY ++ g.dirName.splitOn "/"
  let beforeDir := baseDir ++ [BEFORE_DIR_NAME]
  let afterDir := baseDir ++ [AFTER_DIR_NAME]
  let tempDir := tempyDirectory idx
  let tempInitDir := tempDir ++ [BEFORE_DIR_NAME]
  let sres := scaffold failCmd g.script tempDir tempInitDir
  let evs0 := Event.emptyDirE baseDir :: sres.1
  match sres.2 with
  | some e => (evs0, some e, cfg, hooks)
  | none =>
    let evs1 := evs0 ++ [Event.copyE tempInitDir beforeDir]
    let ares :=
      addStorybook failSets failCmd tempInitDir localRegistry flags g.dirName cfg hooks
    match ares.2.1 with
    | some e => (evs1 ++ ares.1, some e, ares.2.2.1, ares.2.2.2)
    | none =>
      (evs1 ++ ares.1 ++ generateOneTail cleanupEnv tempDir tempInitDir afterDir,
       none, ares.2.2.1, ares.2.2.2)

/-! ## Task pool orchestrator (`runGenerators`, `generate`, CLI action) -/

/-- Model of `improveNPMPerformance()`: read `prefer-offline` and `audit`, set them
to `true` / `false`, and register a shutdown hook restoring both. -/
def improveNPMPerformance (cfg : NpmConfig) (hooks : Hooks) :
    List Event × NpmConfig × Hooks :=
  let preferOffline := cfg.preferOffline
  let audit := cfg.audit
  ([Event.npmGet "prefer-offline", Event.npmGet "audit",
    Event.npmSet "prefer-offline" "true", Event.npmSet "audit" "false"],
   { cfg with preferOffline := "true", audit := "false" },
   hooks ++ [fun c => { c with preferOffline := preferOffline, audit := audit }])

/-- Run the catalog's tasks in order (the `pLimit(1)` queue drains
strictly sequentially; `p-limit` keeps scheduling queued tasks after a
rejection), threading the npm configuration and hook list, collecting the
tagged event trace and each task's settlement. -/
def runTasks (failSets : List String) (failCmd : Cmd → Bool)
    (localRegistry debug cleanupEnv : Bool) (idx : Nat) :
    List Generator → NpmConfig → Hooks →
      List (Nat × Event) × List (Option Err) × NpmConfig × Hooks
  | [], cfg, hooks => ([], [], cfg, hooks)
  | g :: rest, cfg, hooks =>
    let r := generateOne failSets failCmd localRegistry debug cleanupEnv idx g cfg hooks
    let rr := runTasks failSets failCmd localRegistry debug cleanupEnv (idx + 1)
      rest r.2.2.1 r.2.2.2
    (r.1.map (fun e => (idx, e)) ++ rr.1, r.2.1 :: rr.2.1, rr.2.2)

/-- Aggregate outcome of one `runGenerators`/`generate` invocation. -/
structure RunResult where
  /-- Events of `improveNPMPerformance`, before any task. -/
  preEvents : List Event
  /-- Per-task events, tagged with the task's queue position. -/
  trace : List (Nat × Event)
  /-- Each task's settlement, in catalog order (`some e` = rejected). -/
  results : List (Option Err)
  /-- npm configuration after the run. -/
  cfg : NpmConfig
  /-- Shutdown hooks registered during the run. -/
  hooks : Hooks

/-- The `Promise.all` outcome over the per-task settlements: the first
rejection, if any. -/
def promiseAllErr (results : List (Option Err)) : Option Err :=
  results.findSome? id

/-- Model of `runGenerators(generators, localRegistry, debug)`. -/
def runGenerators (failSets : List String) (failCmd : Cmd → Bool)
    (gens : List Generator) (localRegistry debug cleanupEnv : Bool)
    (cfg : NpmConfig) (hooks : Hooks) : RunResult :=
  let imp := improveNPMPerformance cfg hooks
  let r := runTasks failSets failCmd localRegistry debug cleanupEnv 0 gens
    imp.2.1 imp.2.2
  { preEvents := imp.1, trace := r.1, results := r.2.1,
    cfg := r.2.2.1, hooks := r.2.2.2 }

/-- Model of `generate({ template, localRegistry, debug })`: bind each catalog
entry to its key, keep only the requested template when one is given, and
run the generators. -/
def generate (failSets : List String) (failCmd : Cmd → Bool)
    (catalog : List (String × Generator)) (template : Option String)
    (localRegistry debug cleanupEnv : Bool)
    (cfg : NpmConfig) (hooks : Hooks) : RunResult :=
  let generatorConfigs :=
    (catalog.map (fun p => { p.2 with dirName := p.1 })).filter
      (fun g => match template with
        | some t => g.dirName = t
        | none => true)
  runGenerators failSets failCmd generatorConfigs localRegistry debug cleanupEnv
    cfg hooks

/-- The CLI action: `generate(...).catch(e => process.exit(1)).then(() =>
process.exit(0))` — exit code 1 exactly when the orchestrator's promise
rejected. -/
def programAction (failSets : List String) (failCmd : Cmd → Bool)
    (catalog : List (String × Generator)) (template : Option String)
    (localRegistry debug cleanupEnv : Bool)
    (cfg : NpmConfig) (hooks : Hooks) : Nat :=
  match promiseAllErr (generate failSets failCmd catalog template localRegistry
      debug cleanupEnv cfg hooks).results with
  | some _ => 1
  | none => 0

/-! ## `pLimit`-bounded task scheduling (concurrency model for the
orchestrator)

`runGenerators` maps every generator through `limit = pLimit(1)` and
awaits them all.  The scheduler below models `p-limit`: a FIFO queue of
pending tasks, at most `limit` of them active, and an arbitrary
(nondeterministic) interleaving of the active tasks' steps.  Each task is
its queue position paired with the external-command/filesystem events it
will perform, in order. -/

/-- A task in the pool: queue position and remaining events. -/
abbrev SchedTask := Nat × List Event

/-- Scheduler state: the concurrency ceiling, the FIFO queue of not yet
started tasks, the in-flight tasks with their remaining events, and the
global trace of performed events tagged by task. -/
structure SchedState where
  limit : Nat
  pending : List SchedTask
  active : List SchedTask
  trace : List (Nat × Event)

/-- One scheduler transition: start the next queued task when a slot is
free, let any in-flight task perform its next event, or retire an
in-flight task that has no events left. -/
inductive SchedStep : SchedState → SchedState → Prop where
  | start (s : SchedState) (t : SchedTask) (rest : List SchedTask)
      (hp : s.pending = t :: rest) (hl : s.active.length < s.limit) :
      SchedStep s { s with pending := rest, active := s.active ++ [t] }
  | emit (s : SchedState) (l r : List SchedTask) (i : Nat) (e : Event)
      (es : List Event) (ha : s.active = l ++ (i, e :: es) :: r) :
      SchedStep s { s with active := l ++ (i, es) :: r,
                           trace := s.trace ++ [(i, e)] }
  | finish (s : SchedState) (l r : List SchedTask) (i : Nat)
      (ha : s.active = l ++ (i, ([] : List Event)) :: r) :
      SchedStep s { s with active := l ++ r }

/-- The initial pool: all tasks queued in catalog order, none started. -/
def initSched (limit : Nat) (tasks : List (List Event)) : SchedState :=
  { limit := limit, pending := tasks.enum, active := [], trace := [] }

/-- Reachability under scheduler transitions. -/
abbrev SchedReachable : SchedState → SchedState → Prop :=
  Relation.ReflTransGen SchedStep

/-- Invariant of the `limit = 1` pool: at most one task in flight, the
trace's task tags are non-decreasing, the in-flight task is no older than
anything in the trace and older than everything queued, and the queue is
strictly ordered. -/
def SchedInv (s : SchedState) : Prop :=
  s.limit = 1 ∧
  s.active.length ≤ 1 ∧
  List.Pairwise (· ≤ ·) (s.trace.map Prod.fst) ∧
  (∀ a ∈ s.active, ∀ t ∈ s.trace, t.1 ≤ a.1) ∧
  (∀ a ∈ s.active, ∀ p ∈ s.pending, a.1 < p.1) ∧
  (∀ p ∈ s.pending, ∀ t ∈ s.trace, t.1 < p.1) ∧
  List.Pairwise (· < ·) (s.pending.map Prod.fst)

/-- The event list each task will perform, in catalog order, threading
the npm configuration exactly as `runTasks` does. -/
def taskEventLists (failSets : List String) (failCmd : Cmd → Bool)
    (localRegistry debug cleanupEnv : Bool) (idx : Nat) :
    List Generator → NpmConfig → Hooks → List (List Event)
  | [], _, _ => []
  | g :: rest, cfg, hooks =>
    let r := generateOne failSets failCmd localRegistry debug cleanupEnv idx g cfg hooks
    r.1 :: taskEventLists failSets failCmd localRegistry debug cleanupEnv (idx + 1)
      rest r.2.2.1 r.2.2.2

/-! ## Concrete fixtures used by witnesses and counterexamples -/

/-- An oracle under which no external command fails. -/
def wNoFail : Cmd → Bool := fun _ => false

/-- An oracle failing exactly the commands that mention `create-foo`
(task 0's scaffolding tool below). -/
def wFailFoo : Cmd → Bool := fun c => strIncludes c.script "create-foo"

/-- An oracle under which every external command fails. -/
def wAllFail : Cmd → Bool := fun _ => true

/-- A benign npm configuration. -/
def wCfg0 : NpmConfig :=
  { registryURL := "https://registry.npmjs.org/", legacyPeerDeps := "false",
    audit := "true", preferOffline := "false" }

/-- An action that throws (used to exercise the registry swap's error
path). -/
def wActionFail : NpmConfig → List Event × Option Err × NpmConfig :=
  fun cfg => ([], some (.processErr "installer" ["tmp"]), cfg)

/-- A mode-A generator (placeholder-bearing init script, html renderer). -/
def wGenA : Generator :=
  { dirName := "cra/default", name := "CRA", script := "npx create-foo {{beforeDir}}",
    renderer := "@storybook/html" }

/-- A mode-B generator (no placeholder in the init script). -/
def wGenB : Generator :=
  { dirName := "vite/default", name := "Vite", script := "npx create-bar .",
    renderer := "@storybook/react" }

/-- A two-template catalog. -/
def wCatalog2 : List (String × Generator) := [("cra/default", wGenA), ("vite/default", wGenB)]

/-! ## Claims -/

/-- C2: for every action wrapped by `withLocalRegistry`, the registry URL
is read before the mutation and — provided the two `setRegistryURL` calls
themselves succeed — after the action completes, whether it returned or
threw, the registry URL is back to exactly its pre-mutation value, and an
exception thrown by the action is re-thrown to the caller unchanged. -/
theorem withLocalRegistry_restores_and_rethrows
    (failSets : List String)
    (action : NpmConfig → List Event × Option Err × NpmConfig) (cfg : NpmConfig)
    (hprev : cfg.registryURL ∉ failSets) (hlocal : LOCAL_REGISTRY_URL ∉ failSets) :
    (withLocalRegistry failSets action cfg).2.2.registryURL = cfg.registryURL ∧
    (withLocalRegistry failSets action cfg).2.1 =
      (action { cfg with registryURL := LOCAL_REGISTRY_URL }).2.1 := by
  simp [withLocalRegistry, setRegistryURL, hprev, hlocal]

/-- Witness for C2: a concrete throwing action under a registry that never
fails to set: the registry is restored and the action's own error is what
the caller sees. -/
theorem withLocalRegistry_restores_witness :
    (withLocalRegistry [] wActionFail wCfg0).2.2.registryURL = wCfg0.registryURL ∧
    (withLocalRegistry [] wActionFail wCfg0).2.1 =
      (wActionFail { wCfg0 with registryURL := LOCAL_REGISTRY_URL }).2.1 :=
  withLocalRegistry_restores_and_rethrows [] wActionFail wCfg0
    (by simp) (by simp)

/-- C4 counterexample: when the action throws and the `finally`'s
restoration also fails, the caller receives the restoration error, not the
action's error — the action's error is silently replaced, contradicting
the claim that the action's error takes precedence. -/
theorem withLocalRegistry_restoreFail_counterexample :
    (withLocalRegistry ["https://registry.npmjs.org/"] wActionFail wCfg0).2.1 =
      some (.setErr "https://registry.npmjs.org/") ∧
    (withLocalRegistry ["https://registry.npmjs.org/"] wActionFail wCfg0).2.1 ≠
      some (.processErr "installer" ["tmp"]) := by
  decide

/-- C4 amended: if restoring the registry URL fails, the restoration
error is thrown to the caller and the action's error (if any) is
discarded — the `finally` block's throw replaces it. -/
theorem withLocalRegistry_restoreFail_raises_setErr
    (failSets : List String)
    (action : NpmConfig → List Event × Option Err × NpmConfig) (cfg : NpmConfig)
    (hfail : cfg.registryURL ∈ failSets) :
    (withLocalRegistry failSets action cfg).2.1 = some (.setErr cfg.registryURL) := by
  by_cases hl : LOCAL_REGISTRY_URL ∈ failSets <;>
    simp [withLocalRegistry, setRegistryURL, hfail, hl]

/-- Witness for the C4 amended theorem at a concrete failing restore. -/
theorem withLocalRegistry_restoreFail_witness :
    (withLocalRegistry ["https://registry.npmjs.org/"] wActionFail wCfg0).2.1 =
      some (.setErr wCfg0.registryURL) :=
  withLocalRegistry_restoreFail_raises_setErr ["https://registry.npmjs.org/"]
    wActionFail wCfg0 (by decide)

/-- C3 (code bug): for the `angular-cli/prerelease` task, starting from
`legacy-peer-deps = "false"` and `audit = "true"`, a *successful* install
leaves `legacy-peer-deps = "true"` — the restore writes the value read
from `npm config get audit` (the variable named `legacyPeerDeps` is
assigned from the audit setting), not the flag's pre-mutation value — and
a *failed* install leaves the flag `"true"` as well, because the explicit
restore is not in a `finally` and is skipped when the install throws. -/
theorem addStorybook_legacyPeerDeps_bug_eval :
    wCfg0.legacyPeerDeps = "false" ∧ wCfg0.audit = "true" ∧
    (addStorybook [] wNoFail ["tmp", "tempy-0", "before"] false []
      "angular-cli/prerelease" wCfg0 []).2.2.1.legacyPeerDeps = "true" ∧
    (addStorybook [] wAllFail ["tmp", "tempy-0", "before"] false []
      "angular-cli/prerelease" wCfg0 []).2.2.1.legacyPeerDeps = "true" := by
  decide

/-- The aggregate `Promise.all` settles with no rejection exactly when every task
settled without one. -/
theorem promiseAllErr_eq_none_iff (results : List (Option Err)) :
    promiseAllErr results = none ↔ results.all Option.isNone = true := by
  induction results with
  | nil => simp [promiseAllErr, List.findSome?]
  | cons a t ih =>
    cases a with
    | none => simp [promiseAllErr, List.findSome?, ih]
    | some e => simp [promiseAllErr, List.findSome?]

/-- C1 counterexample: a two-template catalog where the first task's
scaffolding command fails while the second task settles successfully; the
orchestrator's promise rejects and the process exits with code 1, not 0. -/
theorem runGenerators_partial_failure_counterexample :
    (generate [] wFailFoo wCatalog2 none true false false wCfg0 []).results.map
        Option.isSome = [true, false] ∧
    programAction [] wFailFoo wCatalog2 none true false false wCfg0 [] = 1 := by
  decide

/-- C1 amended: the orchestrator does not tolerate partial failure — the
per-task closures have no failure recovery, so `Promise.all` rejects on
any task failure, `generate` re-throws it, and the CLI exits 1; the exit
code is 0 exactly when every task settled without error. -/
theorem programAction_exitCode_zero_iff_all_tasks_ok
    (failSets : List String) (failCmd : Cmd → Bool)
    (catalog : List (String × Generator)) (template : Option String)
    (localRegistry debug cleanupEnv : Bool) (cfg : NpmConfig) (hooks : Hooks) :
    programAction failSets failCmd catalog template localRegistry debug cleanupEnv
        cfg hooks =
      if (generate failSets failCmd catalog template localRegistry debug cleanupEnv
          cfg hooks).results.all Option.isNone then 0 else 1 := by
  by_cases hall : (generate failSets failCmd catalog template localRegistry debug
      cleanupEnv cfg hooks).results.all Option.isNone = true
  · have h0 := (promiseAllErr_eq_none_iff _).2 hall
    simp [programAction, h0, hall]
  · cases h : promiseAllErr (generate failSets failCmd catalog template localRegistry
        debug cleanupEnv cfg hooks).results with
    | none => exact absurd ((promiseAllErr_eq_none_iff _).1 h) hall
    | some e => simp [programAction, h, hall]

/-- C9 counterexample: requesting a template key that is not in the
catalog selects zero generators; no task runs, nothing fails, and the
process exits with code 0 — not the claimed fatal non-zero exit. -/
theorem generate_unknown_template_counterexample :
    (generate [] wNoFail wCatalog2 (some "does-not-exist") false false false
        wCfg0 []).results = [] ∧
    (generate [] wNoFail wCatalog2 (some "does-not-exist") false false false
        wCfg0 []).trace = [] ∧
    programAction [] wNoFail wCatalog2 (some "does-not-exist") false false false
        wCfg0 [] = 0 := by
  decide

/-- C9 amended: a requested template key matching no catalog entry is not
detected: the catalog filter selects zero templates, zero tasks run, and
the run completes with exit code 0 as if successful. -/
theorem generate_unknown_template_runs_nothing
    (failSets : List String) (failCmd : Cmd → Bool)
    (catalog : List (String × Generator)) (t : String)
    (localRegistry debug cleanupEnv : Bool) (cfg : NpmConfig) (hooks : Hooks)
    (habs : ∀ p ∈ catalog, p.1 ≠ t) :
    (generate failSets failCmd catalog (some t) localRegistry debug cleanupEnv
        cfg hooks).results = [] ∧
    (generate failSets failCmd catalog (some t) localRegistry debug cleanupEnv
        cfg hooks).trace = [] ∧
    programAction failSets failCmd catalog (some t) localRegistry debug cleanupEnv
        cfg hooks = 0 := by
  have hfilter :
      ((catalog.map (fun p => { p.2 with dirName := p.1 })).filter
        (fun g => decide (g.dirName = t))) = [] := by
    rw [List.filter_eq_nil_iff]
    intro g hg
    rcases List.mem_map.1 hg with ⟨p, hp, rfl⟩
    simpa using habs p hp
  simp [generate, programAction, runGenerators, runTasks, promiseAllErr,
    List.findSome?, hfilter]

/-- C6: whatever the scaffolded source tree contains, no path copied into
the before snapshot has a component equal to `node_modules` or `.git`
(the substring filter is at least that strong). -/
theorem beforeSnapshot_no_excluded_components
    (idx : Nat) (tree : List FsPath) (rel : FsPath)
    (hmem : rel ∈ beforeSnapshot (tempyDirectory idx ++ [BEFORE_DIR_NAME]) tree) :
    "node_modules" ∉ rel ∧ ".git" ∉ rel := by
  have hf := (List.mem_filter.1 hmem).2
  simp only [copyFilter, Bool.and_eq_true, Bool.not_eq_true', pathHasSub,
    List.any_append, Bool.or_eq_false_iff, List.any_eq_false] at hf
  obtain ⟨⟨-, hnm⟩, -, hgit⟩ := hf
  refine ⟨fun hc => ?_, fun hc => ?_⟩
  · have h2 := hnm _ hc
    have h3 : strIncludes "node_modules" "node_modules" = true := by decide
    simp [h2] at h3
  · have h2 := hgit _ hc
    have h3 : strIncludes ".git" ".git" = true := by decide
    simp [h2] at h3

/-- Witness for C6: a source tree with `node_modules` and `.git` entries;
`src/index.js` survives the filter and contains neither component. -/
theorem beforeSnapshot_no_excluded_components_witness :
    ["src", "index.js"] ∈ beforeSnapshot (tempyDirectory 0 ++ [BEFORE_DIR_NAME])
        [["src", "index.js"], ["node_modules", "x"], [".git", "HEAD"]] ∧
    "node_modules" ∉ ["src", "index.js"] ∧ ".git" ∉ ["src", "index.js"] :=
  ⟨by decide, beforeSnapshot_no_excluded_components 0
    [["src", "index.js"], ["node_modules", "x"], [".git", "HEAD"]]
    ["src", "index.js"] (by decide)⟩

/-- C10: the filter is a plain substring test on the whole path, so any
entry one of whose components merely *contains* `node_modules` or `.git`
(e.g. `.gitignore`, `node_modules_backup`) is also excluded from the
before snapshot, for every source tree. -/
theorem beforeSnapshot_excludes_substring_matches
    (tempInitDir : FsPath) (tree : List FsPath) (rel : FsPath)
    (hsub : pathHasSub "node_modules" rel = true ∨ pathHasSub ".git" rel = true) :
    rel ∉ beforeSnapshot tempInitDir tree := by
  intro hmem
  have hf := (List.mem_filter.1 hmem).2
  simp only [copyFilter, Bool.and_eq_true, Bool.not_eq_true', pathHasSub,
    List.any_append, Bool.or_eq_false_iff] at hf
  obtain ⟨⟨-, hnm⟩, -, hgit⟩ := hf
  rcases hsub with h | h
  · rw [pathHasSub] at h; rw [h] at hnm; cases hnm
  · rw [pathHasSub] at h; rw [h] at hgit; cases hgit

/-- Witness for C10: a top-level `.gitignore` is absent from the before
snapshot even though its component is not named `.git`. -/
theorem beforeSnapshot_excludes_substring_matches_witness :
    pathHasSub ".git" [".gitignore"] = true ∧
    [".gitignore"] ∉ beforeSnapshot (tempyDirectory 0 ++ [BEFORE_DIR_NAME])
      [[".gitignore"], ["node_modules_backup"], ["src"]] :=
  ⟨by decide, beforeSnapshot_excludes_substring_matches
    (tempyDirectory 0 ++ [BEFORE_DIR_NAME])
    [[".gitignore"], ["node_modules_backup"], ["src"]]
    [".gitignore"] (Or.inr (by decide))⟩

/-- The per-task event list always starts with `emptyDir(baseDir)`
followed by the scaffolding step's events. -/
theorem generateOne_events_shape
    (failSets : List String) (failCmd : Cmd → Bool)
    (localRegistry debug cleanupEnv : Bool) (idx : Nat) (g : Generator)
    (cfg : NpmConfig) (hooks : Hooks) :
    ∃ tail,
      (generateOne failSets failCmd localRegistry debug cleanupEnv idx g cfg
          hooks).1 =
        Event.emptyDirE (REPROS_DIRECTORY ++ g.dirName.splitOn "/") ::
          ((scaffold failCmd g.script (tempyDirectory idx)
            (tempyDirectory idx ++ [BEFORE_DIR_NAME])).1 ++ tail) := by
  unfold generateOne
  cases h : (scaffold failCmd g.script (tempyDirectory idx)
      (tempyDirectory idx ++ [BEFORE_DIR_NAME])).2 with
  | some e => exact ⟨[], by simp [h]⟩
  | none =>
    cases h2 : (addStorybook failSets failCmd
        (tempyDirectory idx ++ [BEFORE_DIR_NAME]) localRegistry
        (rendererFlags g.renderer) g.dirName cfg hooks).2.1 with
    | some e => exact ⟨_, by simp [h, h2]; try rfl⟩
    | none => exact ⟨_, by simp [h, h2]; try rfl⟩

/-- C5: mode selection of the scaffolding step.  If the init script
contains `{{beforeDir}}`, every occurrence is substituted with the
reserved before-directory name and the command runs with the temp root as
working directory (with a package-manager user-agent hint); otherwise
`tempRoot/before` is pre-created (`ensureDir`) and the unmodified script
runs with that subdirectory as working directory. -/
theorem generateOne_mode_selection
    (failSets : List String) (failCmd : Cmd → Bool)
    (localRegistry debug cleanupEnv : Bool) (idx : Nat) (g : Generator)
    (cfg : NpmConfig) (hooks : Hooks) :
    (strIncludes g.script "{{beforeDir}}" = true →
      ∃ u, ((generateOne failSets failCmd localRegistry debug cleanupEnv idx g
          cfg hooks).1)[1]? =
        some (Event.cmd ⟨replaceAll g.script "{{beforeDir}}" BEFORE_DIR_NAME,
          tempyDirectory idx, some u⟩)) ∧
    (strIncludes g.script "{{beforeDir}}" = false →
      ((generateOne failSets failCmd localRegistry debug cleanupEnv idx g
          cfg hooks).1)[1]? =
        some (Event.ensureDirE (tempyDirectory idx ++ [BEFORE_DIR_NAME])) ∧
      ((generateOne failSets failCmd localRegistry debug cleanupEnv idx g
          cfg hooks).1)[2]? =
        some (Event.cmd ⟨g.script,
          tempyDirectory idx ++ [BEFORE_DIR_NAME], none⟩)) := by
  obtain ⟨tail, htail⟩ := generateOne_events_shape failSets failCmd localRegistry
    debug cleanupEnv idx g cfg hooks
  rw [htail]
  constructor
  · intro h
    exact ⟨_, by simp [scaffold, h]; try rfl⟩
  · intro h
    simp [scaffold, h]

/-- Witness for C5: both modes at concrete scripts — the placeholder
script runs substituted in the temp root; the plain script runs in the
pre-created `before` subdirectory. -/
theorem generateOne_mode_selection_witness :
    (∃ u, ((generateOne [] wNoFail false false false 0 wGenA wCfg0 []).1)[1]? =
      some (Event.cmd ⟨replaceAll wGenA.script "{{beforeDir}}" BEFORE_DIR_NAME,
        tempyDirectory 0, some u⟩)) ∧
    (((generateOne [] wNoFail false false false 1 wGenB wCfg0 []).1)[1]? =
      some (Event.ensureDirE (tempyDirectory 1 ++ [BEFORE_DIR_NAME])) ∧
     ((generateOne [] wNoFail false false false 1 wGenB wCfg0 []).1)[2]? =
      some (Event.cmd ⟨wGenB.script,
        tempyDirectory 1 ++ [BEFORE_DIR_NAME], none⟩)) :=
  ⟨(generateOne_mode_selection [] wNoFail false false false 0 wGenA wCfg0 []).1
      (by decide),
   (generateOne_mode_selection [] wNoFail false false false 1 wGenB wCfg0 []).2
      (by decide)⟩

/-- Events produced by the wrapped action are events of the registry
swap, whichever way the swap's own sets turn out, as long as the initial
set succeeds. -/
theorem withLocalRegistry_events_superset
    (failSets : List String)
    (action : NpmConfig → List Event × Option Err × NpmConfig)
    (cfg : NpmConfig) (e : Event)
    (hlocal : LOCAL_REGISTRY_URL ∉ failSets)
    (he : e ∈ (action { cfg with registryURL := LOCAL_REGISTRY_URL }).1) :
    e ∈ (withLocalRegistry failSets action cfg).1 := by
  by_cases hprev : cfg.registryURL ∈ failSets <;>
    simp [withLocalRegistry, setRegistryURL, hlocal, hprev, he]

/-- The epilogue `addStorybookFinish` at most appends events. -/
theorem mem_addStorybookFinish_events (p : Bool) (lpd : String)
    (evs : List Event) (err : Option Err) (cfg : NpmConfig) (hooks : Hooks)
    (e : Event) (he : e ∈ evs) :
    e ∈ (addStorybookFinish p lpd evs err cfg hooks).1 := by
  cases err <;> cases p <;> simp [addStorybookFinish, he]

/-- The storybook installer command — the CLI binary with `--yes` and the
given flags, run in the project directory — is among `addStorybook`'s
events whenever the local-registry swap's initial set can succeed. -/
theorem sbInit_cmd_mem_addStorybook
    (failSets : List String) (failCmd : Cmd → Bool) (dir : FsPath)
    (localRegistry : Bool) (flags : List String) (dirName : String)
    (cfg : NpmConfig) (hooks : Hooks)
    (hlocal : localRegistry = true → LOCAL_REGISTRY_URL ∉ failSets) :
    Event.cmd ⟨sbCliBinaryPath ++ " init " ++ String.intercalate " "
        ("--yes" :: flags), dir, none⟩ ∈
      (addStorybook failSets failCmd dir localRegistry flags dirName cfg
        hooks).1 := by
  unfold addStorybook
  refine mem_addStorybookFinish_events _ _ _ _ _ _ _ ?_
  refine List.mem_append.2 (Or.inr ?_)
  cases localRegistry with
  | false => simp [sbInit]
  | true =>
    simp only [eq_self_iff_true, if_true]
    refine withLocalRegistry_events_superset _ _ _ _ (hlocal rfl) ?_
    simp [sbInit]

/-- C7: installer flags.  For every task whose scaffolding step succeeds
(and whose local-registry set can be applied, when requested), the
storybook installer is invoked in the project directory with `--yes`
followed by the flags derived from `expected.renderer` — and that
derivation maps the html renderer to `--type html`, the server renderer
to `--type server`, and every other renderer to no extra flag. -/
theorem generateOne_installer_flags
    (failSets : List String) (failCmd : Cmd → Bool)
    (localRegistry debug cleanupEnv : Bool) (idx : Nat) (g : Generator)
    (cfg : NpmConfig) (hooks : Hooks)
    (hscaffold : (scaffold failCmd g.script (tempyDirectory idx)
      (tempyDirectory idx ++ [BEFORE_DIR_NAME])).2 = none)
    (hlocal : localRegistry = true → LOCAL_REGISTRY_URL ∉ failSets) :
    Event.cmd ⟨sbCliBinaryPath ++ " init " ++ String.intercalate " "
        ("--yes" :: rendererFlags g.renderer),
      tempyDirectory idx ++ [BEFORE_DIR_NAME], none⟩ ∈
      (generateOne failSets failCmd localRegistry debug cleanupEnv idx g cfg
        hooks).1 ∧
    rendererFlags "@storybook/html" = ["--type html"] ∧
    rendererFlags "@storybook/server" = ["--type server"] ∧
    (∀ r, r ≠ "@storybook/html" → r ≠ "@storybook/server" →
      rendererFlags r = []) := by
  refine ⟨?_, by decide, by decide, fun r h1 h2 => by simp [rendererFlags, h1, h2]⟩
  have hmem := sbInit_cmd_mem_addStorybook failSets failCmd
    (tempyDirectory idx ++ [BEFORE_DIR_NAME]) localRegistry
    (rendererFlags g.renderer) g.dirName cfg hooks hlocal
  unfold generateOne
  simp only [hscaffold]
  cases ha : (addStorybook failSets failCmd
      (tempyDirectory idx ++ [BEFORE_DIR_NAME]) localRegistry
      (rendererFlags g.renderer) g.dirName cfg hooks).2.1 with
  | some e => simp [ha, hmem]
  | none => simp [ha, hmem]

/-- Witness for C7: for the html-renderer mode-A generator with a local
registry, the installer command `... init --yes --type html` appears in
the task's events. -/
theorem generateOne_installer_flags_witness :
    Event.cmd ⟨sbCliBinaryPath ++ " init " ++ String.intercalate " "
        ("--yes" :: rendererFlags wGenA.renderer),
      tempyDirectory 0 ++ [BEFORE_DIR_NAME], none⟩ ∈
      (generateOne [] wNoFail true false false 0 wGenA wCfg0 []).1 ∧
    rendererFlags "@storybook/html" = ["--type html"] ∧
    rendererFlags "@storybook/server" = ["--type server"] ∧
    (∀ r, r ≠ "@storybook/html" → r ≠ "@storybook/server" →
      rendererFlags r = []) :=
  generateOne_installer_flags [] wNoFail true false false 0 wGenA wCfg0 []
    (by decide) (fun _ => by decide)

/-- The initial pool satisfies the serialization invariant when the
ceiling is one. -/
theorem schedInv_init (tasks : List (List Event)) :
    SchedInv (initSched 1 tasks) := by
  refine ⟨rfl, by simp [initSched], by simp [initSched], ?_, ?_, ?_, ?_⟩
  · intro a ha
    simp [initSched] at ha
  · intro a ha
    simp [initSched] at ha
  · intro p hp tr htr
    simp [initSched] at htr
  · simp only [initSched, List.enum_map_fst]
    exact List.pairwise_lt_range _

/-- Every scheduler transition preserves the serialization invariant. -/
theorem schedInv_step {s s' : SchedState} (hinv : SchedInv s)
    (hstep : SchedStep s s') : SchedInv s' := by
  obtain ⟨hlim, hact, htr, hat, hap, hpt, hpp⟩ := hinv
  cases hstep with
  | start t rest hp hl =>
    have hnil : s.active = [] := by
      rw [hlim] at hl
      exact List.length_eq_zero.1 (Nat.lt_one_iff.1 hl)
    have htmem : t ∈ s.pending := by
      rw [hp]
      exact List.mem_cons_self _ _
    have hppc : (∀ b ∈ rest.map Prod.fst, t.1 < b) ∧
        List.Pairwise (· < ·) (rest.map Prod.fst) := by
      have h := hpp
      rw [hp] at h
      simpa only [List.map_cons, List.pairwise_cons] using h
    refine ⟨hlim, by simp [hnil], htr, ?_, ?_, ?_, hppc.2⟩
    · intro a ha tr2 htr2
      rw [hnil, List.nil_append, List.mem_singleton] at ha
      subst ha
      exact Nat.le_of_lt (hpt _ htmem tr2 htr2)
    · intro a ha p hpmem
      rw [hnil, List.nil_append, List.mem_singleton] at ha
      subst ha
      exact hppc.1 _ (List.mem_map_of_mem _ hpmem)
    · intro p hpmem tr2 htr2
      refine hpt p ?_ tr2 htr2
      rw [hp]
      exact List.mem_cons_of_mem _ hpmem
  | emit l r i e es ha =>
    rw [ha] at hact
    simp only [List.length_append, List.length_cons] at hact
    have hl0 : l = [] := List.length_eq_zero.1 (by omega)
    have hr0 : r = [] := List.length_eq_zero.1 (by omega)
    subst hl0
    subst hr0
    simp only [List.nil_append, List.append_nil] at ha
    have hactive : (i, e :: es) ∈ s.active := by
      rw [ha]
      exact List.mem_singleton.2 rfl
    refine ⟨hlim, by simp, ?_, ?_, ?_, ?_, hpp⟩
    · rw [List.map_append, List.pairwise_append]
      refine ⟨htr, by simp, ?_⟩
      intro x hx y hy
      simp only [List.map_cons, List.map_nil, List.mem_singleton] at hy
      subst hy
      rcases List.mem_map.1 hx with ⟨tr2, htr2, rfl⟩
      exact hat _ hactive tr2 htr2
    · intro a ha2 tr2 htr2
      simp only [List.nil_append, List.mem_singleton] at ha2
      subst ha2
      rcases List.mem_append.1 htr2 with h | h
      · exact hat _ hactive _ h
      · simp only [List.mem_singleton] at h
        subst h
        exact Nat.le_refl _
    · intro a ha2 p hpmem
      simp only [List.nil_append, List.mem_singleton] at ha2
      subst ha2
      exact hap _ hactive p hpmem
    · intro p hpmem tr2 htr2
      rcases List.mem_append.1 htr2 with h | h
      · exact hpt p hpmem _ h
      · simp only [List.mem_singleton] at h
        subst h
        exact hap _ hactive p hpmem
  | finish l r i ha =>
    have hsub : ∀ a, a ∈ l ++ r → a ∈ s.active := by
      intro a hmem
      rw [ha]
      rcases List.mem_append.1 hmem with h | h
      · exact List.mem_append.2 (Or.inl h)
      · exact List.mem_append.2 (Or.inr (List.mem_cons_of_mem _ h))
    refine ⟨hlim, ?_, htr, ?_, ?_, hpt, hpp⟩
    · rw [ha] at hact
      simp only [List.length_append, List.length_cons] at hact ⊢
      omega
    · intro a hmem tr2 htr2
      exact hat a (hsub a hmem) tr2 htr2
    · intro a hmem p hpmem
      exact hap a (hsub a hmem) p hpmem

/-- The serialization invariant holds in every state reachable from the
one-slot pool. -/
theorem schedInv_reachable (tasks : List (List Event)) (s : SchedState)
    (h : SchedReachable (initSched 1 tasks) s) : SchedInv s := by
  induction h with
  | refl => exact schedInv_init tasks
  | tail hab hbc ih => exact schedInv_step ih hbc

/-- C8: with the orchestrator's `pLimit(1)` ceiling, task execution is
serial — in every reachable scheduler state over the catalog's per-task
event lists, the trace's task tags are non-decreasing, i.e. no event of a
later-queued task B occurs before any event of an earlier-queued task A;
in particular B's first external command cannot precede A's last. -/
theorem runGenerators_serializes_tasks
    (failSets : List String) (failCmd : Cmd → Bool)
    (localRegistry debug cleanupEnv : Bool) (gens : List Generator)
    (cfg : NpmConfig) (hooks : Hooks) (s : SchedState)
    (h : SchedReachable (initSched 1 (taskEventLists failSets failCmd
      localRegistry debug cleanupEnv 0 gens cfg hooks)) s) :
    List.Pairwise (· ≤ ·) (s.trace.map Prod.fst) :=
  (schedInv_reachable _ s h).2.2.1

/-- Witness for C8 at the two-template catalog and the initial pool
state. -/
theorem runGenerators_serializes_tasks_witness :
    List.Pairwise (· ≤ ·) (((initSched 1 (taskEventLists [] wNoFail true false
      false 0 [wGenA, wGenB] wCfg0 [])).trace).map Prod.fst) :=
  runGenerators_serializes_tasks [] wNoFail true false false [wGenA, wGenB]
    wCfg0 [] _ Relation.ReflTransGen.refl

/-- Witness for the C9 amended theorem: a concrete catalog with no entry
named `unknown/key`. -/
theorem generate_unknown_template_runs_nothing_witness :
    (generate [] wNoFail wCatalog2 (some "unknown/key") false false false
        wCfg0 []).results = [] ∧
    (generate [] wNoFail wCatalog2 (some "unknown/key") false false false
        wCfg0 []).trace = [] ∧
    programAction [] wNoFail wCatalog2 (some "unknown/key") false false false
        wCfg0 [] = 0 :=
  generate_unknown_template_runs_nothing [] wNoFail wCatalog2 "unknown/key"
    false false false wCfg0 [] (by decide)
